import Mathlib

/-!
Verification development for the GestureStrike repository
(matheussiqueira-dev/rastreamento-de-maos-em-FPS).

The definitions below are a shallow embedding of the TypeScript sources:
  - the match state machine of src/App.tsx (gameReducer, createInitialState,
    createBaseStats);
  - the session analytics of src/domain/session-analytics.ts
    (appendSessionHistory, deriveSessionInsights,
    calculateRecommendedDifficulty);
  - the gesture classifier and debounce layer of
    src/components/HandTracker.tsx (detectMovement, onResults).

JavaScript numbers are modelled as Int where the program only ever performs
integer arithmetic on them (ammo, health, score, streaks, timestamps) and as
Rat where fractional values occur (landmark coordinates, accuracies,
averages).  Square roots are avoided by comparing squared distances:
for t larger than 0, sqrt d < t holds exactly when d < t ^ 2.
-/

/-- Game status enum from src/App.tsx / src/types (MENU, PLAYING, PAUSED,
GAMEOVER). -/
inductive GameStatus where
  | MENU
  | PLAYING
  | PAUSED
  | GAMEOVER
deriving DecidableEq, Repr

/-- Difficulty levels.  src/domain/session-analytics.ts admits the four
values EASY, CASUAL, TACTICAL and INSANE (its isDifficultyLevel validator);
the frontend menu uses the subset CASUAL, TACTICAL, INSANE. -/
inductive DifficultyLevel where
  | EASY
  | CASUAL
  | TACTICAL
  | INSANE
deriving DecidableEq, Repr

/-- MatchStats record from src/App.tsx. -/
structure MatchStats where
  shotsFired : Int
  shotsHit : Int
  enemiesDefeated : Int
  highestWave : Int
  currentStreak : Int
  bestStreak : Int
  sessionStartedAt : Option Int
  sessionEndedAt : Option Int
deriving DecidableEq, Repr

/-- GameState record from src/App.tsx. -/
structure GameState where
  ammo : Int
  maxAmmo : Int
  score : Int
  health : Int
  status : GameStatus
  isReloading : Bool
  lastDamageTime : Int
  isGameOver : Bool
  wave : Int
  difficulty : DifficultyLevel
  stats : MatchStats
deriving DecidableEq, Repr

/-- Modelled from the spec: the constant BASE_AMMO lives in
src/config/gameConfig.ts, which is not among the provided sources.  The
section 8 scenario of the spec (fresh GameState has ammo = 10 and maxAmmo = 10)
fixes its value. -/
def BASE_AMMO : Int := 10

/-- Modelled from the spec: the constant MAX_HEALTH lives in
src/config/gameConfig.ts, which is not among the provided sources.  The
section 8 scenario of the spec (fresh GameState has health = 100) fixes its
value. -/
def MAX_HEALTH : Int := 100

/-- createBaseStats from src/App.tsx lines 26-35. -/
def createBaseStats : MatchStats :=
  { shotsFired := 0
    shotsHit := 0
    enemiesDefeated := 0
    highestWave := 1
    currentStreak := 0
    bestStreak := 0
    sessionStartedAt := none
    sessionEndedAt := none }

/-- createInitialState from src/App.tsx lines 37-49. -/
def createInitialState (difficulty : DifficultyLevel) : GameState :=
  { ammo := BASE_AMMO
    maxAmmo := BASE_AMMO
    score := 0
    health := MAX_HEALTH
    status := GameStatus.MENU
    isReloading := false
    lastDamageTime := 0
    isGameOver := false
    wave := 1
    difficulty := difficulty
    stats := createBaseStats }

/-- GameAction union from src/App.tsx lines 51-61. -/
inductive GameAction where
  | START_MATCH (difficulty : DifficultyLevel) (startedAt : Int)
  | RETURN_MENU (difficulty : DifficultyLevel)
  | PAUSE_MATCH
  | RESUME_MATCH
  | REGISTER_SHOT (didHit : Bool)
  | RELOAD_START
  | RELOAD_COMPLETE
  | TAKE_DAMAGE (amount : Int) (at' : Int)
  | ENEMY_DEFEATED (points : Int)
  | SET_WAVE (wave : Int) (at' : Int)
deriving DecidableEq, Repr

/-- gameReducer from src/App.tsx lines 63-146, translated clause by clause.
Early returns on failed guards become if-then-else with the state returned
unchanged. -/
def gameReducer (state : GameState) (action : GameAction) : GameState :=
  match action with
  | .START_MATCH difficulty startedAt =>
      { createInitialState difficulty with
        status := GameStatus.PLAYING
        difficulty := difficulty
        stats := { createBaseStats with sessionStartedAt := some startedAt } }
  | .RETURN_MENU difficulty => createInitialState difficulty
  | .PAUSE_MATCH =>
      if state.status ≠ GameStatus.PLAYING then state
      else { state with status := GameStatus.PAUSED }
  | .RESUME_MATCH =>
      if state.status ≠ GameStatus.PAUSED then state
      else { state with status := GameStatus.PLAYING }
  | .REGISTER_SHOT didHit =>
      if state.status ≠ GameStatus.PLAYING ∨ state.isReloading ∨ state.ammo ≤ 0 then state
      else
        { state with
          ammo := state.ammo - 1
          stats := { state.stats with
            shotsFired := state.stats.shotsFired + 1
            shotsHit := state.stats.shotsHit + (if didHit then 1 else 0)
            currentStreak := if didHit then state.stats.currentStreak + 1 else 0
            bestStreak :=
              if didHit then max state.stats.bestStreak (state.stats.currentStreak + 1)
              else state.stats.bestStreak } }
  | .RELOAD_START =>
      if state.isReloading ∨ state.ammo = state.maxAmmo ∨ state.status ≠ GameStatus.PLAYING then
        state
      else { state with isReloading := true }
  | .RELOAD_COMPLETE =>
      if ¬ state.isReloading then state
      else { state with isReloading := false, ammo := state.maxAmmo }
  | .TAKE_DAMAGE amount at' =>
      if state.status ≠ GameStatus.PLAYING ∨ state.health ≤ 0 then state
      else
        let newHealth : Int := max 0 (state.health - amount)
        let defeated : Bool := decide (newHealth ≤ 0)
        { state with
          health := newHealth
          lastDamageTime := at'
          status := if defeated then GameStatus.GAMEOVER else state.status
          isGameOver := defeated
          stats :=
            if defeated then { state.stats with sessionEndedAt := some at' }
            else state.stats }
  | .ENEMY_DEFEATED points =>
      if state.status ≠ GameStatus.PLAYING then state
      else
        { state with
          score := state.score + points
          stats := { state.stats with enemiesDefeated := state.stats.enemiesDefeated + 1 } }
  | .SET_WAVE wave at' =>
      if state.status = GameStatus.MENU then state
      else
        { state with
          wave := wave
          stats := { state.stats with
            highestWave := max wave state.stats.highestWave
            sessionEndedAt :=
              if state.status = GameStatus.GAMEOVER then some at'
              else state.stats.sessionEndedAt } }

/-- The unsatisfied-precondition predicate of the section 4.3 table: true
exactly for the illegal (state, action) pairs enumerated by claim C1.
START_MATCH and RETURN_MENU have precondition "any" and are never
illegal. -/
def precondUnsat (state : GameState) (action : GameAction) : Prop :=
  match action with
  | .START_MATCH _ _ => False
  | .RETURN_MENU _ => False
  | .PAUSE_MATCH => state.status ≠ GameStatus.PLAYING
  | .RESUME_MATCH => state.status ≠ GameStatus.PAUSED
  | .REGISTER_SHOT _ =>
      state.status ≠ GameStatus.PLAYING ∨ state.isReloading = true ∨ state.ammo = 0
  | .RELOAD_START =>
      state.isReloading = true ∨ state.ammo = state.maxAmmo ∨ state.status ≠ GameStatus.PLAYING
  | .RELOAD_COMPLETE => state.isReloading = false
  | .TAKE_DAMAGE _ _ => state.status ≠ GameStatus.PLAYING ∨ state.health = 0
  | .ENEMY_DEFEATED _ => state.status ≠ GameStatus.PLAYING
  | .SET_WAVE _ _ => state.status = GameStatus.MENU

instance (state : GameState) (action : GameAction) : Decidable (precondUnsat state action) := by
  unfold precondUnsat
  cases action <;> infer_instance

/-- C1: for every GameState and every action whose precondition from the
section 4.3 table is not satisfied, the reducer returns the input state
unchanged (and, being a total Lean function, never throws). -/
theorem c1_illegal_actions_are_noops (state : GameState) (action : GameAction)
    (h : precondUnsat state action) : gameReducer state action = state := by
  cases action <;>
    simp only [precondUnsat] at h <;>
    simp only [gameReducer]
  case PAUSE_MATCH => simp [h]
  case RESUME_MATCH => simp [h]
  case REGISTER_SHOT didHit =>
    have : state.status ≠ GameStatus.PLAYING ∨ state.isReloading = true ∨ state.ammo ≤ 0 := by
      rcases h with h | h | h
      · exact Or.inl h
      · exact Or.inr (Or.inl h)
      · exact Or.inr (Or.inr (by omega))
    rcases this with h' | h' | h' <;> simp [h']
  case RELOAD_START =>
    rcases h with h' | h' | h' <;> simp [h']
  case RELOAD_COMPLETE => simp [h]
  case TAKE_DAMAGE amount at' =>
    have : state.status ≠ GameStatus.PLAYING ∨ state.health ≤ 0 := by
      rcases h with h | h
      · exact Or.inl h
      · exact Or.inr (by omega)
    rcases this with h' | h' <;> simp [h']
  case ENEMY_DEFEATED points => simp [h]
  case SET_WAVE wave at' => simp [h]

/-- Witness for C1 at a concrete illegal pair: PAUSE_MATCH dispatched while
the status is MENU leaves the initial state unchanged. -/
theorem c1_illegal_actions_are_noops_witness :
    precondUnsat (createInitialState DifficultyLevel.TACTICAL) GameAction.PAUSE_MATCH ∧
      gameReducer (createInitialState DifficultyLevel.TACTICAL) GameAction.PAUSE_MATCH =
        createInitialState DifficultyLevel.TACTICAL :=
  ⟨by decide, c1_illegal_actions_are_noops _ _ (by decide)⟩

/-- The section 3 data-model invariants of the spec: ammo within
[0, maxAmmo], health within [0, MAX_HEALTH], and zero health only in
GAMEOVER. -/
def gameInvariants (state : GameState) : Prop :=
  0 ≤ state.ammo ∧ state.ammo ≤ state.maxAmmo ∧
    0 ≤ state.health ∧ state.health ≤ MAX_HEALTH ∧
    (state.health = 0 → state.status = GameStatus.GAMEOVER)

instance (state : GameState) : Decidable (gameInvariants state) := by
  unfold gameInvariants
  infer_instance

/-- C2 counterexample: the claim quantifies over every action, but
TAKE_DAMAGE with a negative amount heals past MAX_HEALTH.  From a PLAYING
state with health = 100 = MAX_HEALTH satisfying all invariants,
TAKE_DAMAGE with amount -50 produces health = 150, violating
health ≤ MAX_HEALTH. -/
theorem c2_invariants_counterexample :
    gameInvariants { createInitialState DifficultyLevel.TACTICAL with status := GameStatus.PLAYING } ∧
      ¬ gameInvariants
        (gameReducer { createInitialState DifficultyLevel.TACTICAL with status := GameStatus.PLAYING }
          (GameAction.TAKE_DAMAGE (-50) 0)) ∧
      (gameReducer { createInitialState DifficultyLevel.TACTICAL with status := GameStatus.PLAYING }
          (GameAction.TAKE_DAMAGE (-50) 0)).health = 150 := by
  refine ⟨by decide, by decide, by decide⟩

/-- C2 (amended): the reducer preserves the invariants for every action
whose TAKE_DAMAGE amount is nonnegative (the single case the counterexample
exhibits is healing via a negative damage amount, which the reducer does
not clamp from above). -/
theorem c2_invariants_preserved (state : GameState) (action : GameAction)
    (hinv : gameInvariants state)
    (hdmg : ∀ amount at', action = GameAction.TAKE_DAMAGE amount at' → 0 ≤ amount) :
    gameInvariants (gameReducer state action) := by
  obtain ⟨ha0, ham, hh0, hhm, hg⟩ := hinv
  have hmh : MAX_HEALTH = (100 : Int) := rfl
  cases action with
  | START_MATCH difficulty startedAt =>
      simp only [gameReducer, gameInvariants]
      refine ⟨?_, ?_, ?_, ?_, ?_⟩
      · show (0:Int) ≤ BASE_AMMO
        decide
      · show BASE_AMMO ≤ BASE_AMMO
        decide
      · show (0:Int) ≤ MAX_HEALTH
        decide
      · show MAX_HEALTH ≤ MAX_HEALTH
        decide
      · intro hz
        have hz' : MAX_HEALTH = (0:Int) := hz
        exact absurd hz' (by decide)
  | RETURN_MENU difficulty =>
      simp only [gameReducer, gameInvariants]
      refine ⟨?_, ?_, ?_, ?_, ?_⟩
      · show (0:Int) ≤ BASE_AMMO
        decide
      · show BASE_AMMO ≤ BASE_AMMO
        decide
      · show (0:Int) ≤ MAX_HEALTH
        decide
      · show MAX_HEALTH ≤ MAX_HEALTH
        decide
      · intro hz
        have hz' : MAX_HEALTH = (0:Int) := hz
        exact absurd hz' (by decide)
  | PAUSE_MATCH =>
      by_cases h : state.status = GameStatus.PLAYING
      · simp only [gameReducer]
        rw [if_neg (by simp [h])]
        refine ⟨ha0, ham, hh0, hhm, ?_⟩
        intro hz
        have hz' : state.health = 0 := hz
        have h1 := hg hz'
        rw [h] at h1
        exact absurd h1 (by decide)
      · simp only [gameReducer]
        rw [if_pos (by simp [h])]
        exact ⟨ha0, ham, hh0, hhm, hg⟩
  | RESUME_MATCH =>
      by_cases h : state.status = GameStatus.PAUSED
      · simp only [gameReducer]
        rw [if_neg (by simp [h])]
        refine ⟨ha0, ham, hh0, hhm, ?_⟩
        intro hz
        have hz' : state.health = 0 := hz
        have h1 := hg hz'
        rw [h] at h1
        exact absurd h1 (by decide)
      · simp only [gameReducer]
        rw [if_pos (by simp [h])]
        exact ⟨ha0, ham, hh0, hhm, hg⟩
  | REGISTER_SHOT didHit =>
      by_cases h : state.status ≠ GameStatus.PLAYING ∨ state.isReloading = true ∨ state.ammo ≤ 0
      · simp only [gameReducer]
        rw [if_pos (by tauto)]
        exact ⟨ha0, ham, hh0, hhm, hg⟩
      · push_neg at h
        obtain ⟨hst, hrel, hammo⟩ := h
        simp only [gameReducer]
        rw [if_neg (by push_neg; exact ⟨hst, by simpa using hrel, hammo⟩)]
        refine ⟨?_, ?_, hh0, hhm, ?_⟩
        · show (0:Int) ≤ state.ammo - 1
          omega
        · show state.ammo - 1 ≤ state.maxAmmo
          omega
        · intro hz
          have hz' : state.health = 0 := hz
          have h1 := hg hz'
          rw [hst] at h1
          exact absurd h1 (by decide)
  | RELOAD_START =>
      by_cases h : state.isReloading = true ∨ state.ammo = state.maxAmmo ∨
          state.status ≠ GameStatus.PLAYING
      · simp only [gameReducer]
        rw [if_pos (by tauto)]
        exact ⟨ha0, ham, hh0, hhm, hg⟩
      · push_neg at h
        obtain ⟨hrel, hammo, hst⟩ := h
        simp only [gameReducer]
        rw [if_neg (by push_neg; exact ⟨by simpa using hrel, hammo, hst⟩)]
        refine ⟨ha0, ham, hh0, hhm, ?_⟩
        intro hz
        have hz' : state.health = 0 := hz
        have h1 := hg hz'
        rw [hst] at h1
        exact absurd h1 (by decide)
  | RELOAD_COMPLETE =>
      by_cases h : state.isReloading
      · simp only [gameReducer]
        rw [if_neg (by simp [h])]
        refine ⟨?_, ?_, hh0, hhm, hg⟩
        · show (0:Int) ≤ state.maxAmmo
          omega
        · show state.maxAmmo ≤ state.maxAmmo
          omega
      · simp only [gameReducer]
        rw [if_pos (by simpa using h)]
        exact ⟨ha0, ham, hh0, hhm, hg⟩
  | TAKE_DAMAGE amount at' =>
      have hamt : 0 ≤ amount := hdmg amount at' rfl
      by_cases h : state.status ≠ GameStatus.PLAYING ∨ state.health ≤ 0
      · simp only [gameReducer]
        rw [if_pos (by tauto)]
        exact ⟨ha0, ham, hh0, hhm, hg⟩
      · push_neg at h
        obtain ⟨hst, hhp⟩ := h
        simp only [gameReducer]
        rw [if_neg (by push_neg; exact ⟨hst, hhp⟩)]
        refine ⟨ha0, ham, ?_, ?_, ?_⟩
        · show (0:Int) ≤ max 0 (state.health - amount)
          exact le_max_left _ _
        · show max 0 (state.health - amount) ≤ MAX_HEALTH
          rw [hmh] at hhm ⊢
          omega
        · intro hz
          have hz' : max 0 (state.health - amount) = 0 := hz
          have hdef : decide (max 0 (state.health - amount) ≤ 0) = true := by
            rw [decide_eq_true_iff]
            omega
          show (if decide (max 0 (state.health - amount) ≤ 0) = true then GameStatus.GAMEOVER
              else state.status) = GameStatus.GAMEOVER
          rw [hdef]
          simp
  | ENEMY_DEFEATED points =>
      by_cases h : state.status = GameStatus.PLAYING
      · simp only [gameReducer]
        rw [if_neg (by simp [h])]
        refine ⟨ha0, ham, hh0, hhm, ?_⟩
        intro hz
        have hz' : state.health = 0 := hz
        have h1 := hg hz'
        rw [h] at h1
        exact absurd h1 (by decide)
      · simp only [gameReducer]
        rw [if_pos (by simp [h])]
        exact ⟨ha0, ham, hh0, hhm, hg⟩
  | SET_WAVE wave at' =>
      by_cases h : state.status = GameStatus.MENU
      · simp only [gameReducer]
        rw [if_pos h]
        exact ⟨ha0, ham, hh0, hhm, hg⟩
      · simp only [gameReducer]
        rw [if_neg h]
        exact ⟨ha0, ham, hh0, hhm, hg⟩

/-- Witness for C2 at a concrete input: a legal damage action applied to a
fresh PLAYING state keeps the invariants. -/
theorem c2_invariants_preserved_witness :
    gameInvariants { createInitialState DifficultyLevel.TACTICAL with status := GameStatus.PLAYING } ∧
      gameInvariants
        (gameReducer { createInitialState DifficultyLevel.TACTICAL with status := GameStatus.PLAYING }
          (GameAction.TAKE_DAMAGE 30 5)) :=
  ⟨by decide,
    c2_invariants_preserved _ _ (by decide)
      (by
        intro amount at' h
        injection h with h1 h2
        omega)⟩

/-- C3 counterexample: START_MATCH has no guard in gameReducer.  Dispatched
from a PAUSED state it is not a no-op: it returns a freshly reset state
with status PLAYING and sessionStartedAt set, so a new PLAYING session does
start from PAUSED. -/
theorem c3_start_match_counterexample :
    gameReducer { createInitialState DifficultyLevel.TACTICAL with status := GameStatus.PAUSED }
        (GameAction.START_MATCH DifficultyLevel.TACTICAL 42) ≠
      { createInitialState DifficultyLevel.TACTICAL with status := GameStatus.PAUSED } ∧
      (gameReducer { createInitialState DifficultyLevel.TACTICAL with status := GameStatus.PAUSED }
          (GameAction.START_MATCH DifficultyLevel.TACTICAL 42)).status = GameStatus.PLAYING ∧
      (gameReducer { createInitialState DifficultyLevel.TACTICAL with status := GameStatus.PAUSED }
          (GameAction.START_MATCH DifficultyLevel.TACTICAL 42)).stats.sessionStartedAt = some 42 := by
  refine ⟨by decide, by decide, by decide⟩

/-- C3 (amended): START_MATCH is unguarded, so from every status —
including PLAYING and PAUSED — it starts a fresh PLAYING session: the
result is the reset initial state with status PLAYING, stats reset and
sessionStartedAt set to the timestamp of the action. -/
theorem c3_start_match_resets_from_playing_and_paused (state : GameState)
    (difficulty : DifficultyLevel) (startedAt : Int)
    (h : state.status = GameStatus.PLAYING ∨ state.status = GameStatus.PAUSED) :
    gameReducer state (GameAction.START_MATCH difficulty startedAt) =
      { createInitialState difficulty with
        status := GameStatus.PLAYING
        stats := { createBaseStats with sessionStartedAt := some startedAt } } := by
  simp [gameReducer, createInitialState]

/-- Witness for C3: applying the amended theorem at the concrete PAUSED
state. -/
theorem c3_start_match_resets_witness_apply :
    gameReducer { createInitialState DifficultyLevel.TACTICAL with status := GameStatus.PAUSED }
        (GameAction.START_MATCH DifficultyLevel.CASUAL 7) =
      { createInitialState DifficultyLevel.CASUAL with
        status := GameStatus.PLAYING
        stats := { createBaseStats with sessionStartedAt := some 7 } } :=
  c3_start_match_resets_from_playing_and_paused _ _ _ (Or.inr (by decide))

/-- Iterated dispatch of REGISTER_SHOT with didHit = true, N times. -/
def applyHits (state : GameState) : Nat → GameState
  | 0 => state
  | n + 1 => gameReducer (applyHits state n) (GameAction.REGISTER_SHOT true)

/-- Invariant of repeated hits: while ammo lasts, the state stays PLAYING
and not reloading, ammo decreases one per shot, currentStreak counts the
hits, and bestStreak tracks at least the streak. -/
theorem applyHits_spec (state : GameState)
    (hst : state.status = GameStatus.PLAYING)
    (hrel : state.isReloading = false)
    (hcur : state.stats.currentStreak = 0)
    (hbest : 0 ≤ state.stats.bestStreak) :
    ∀ n : Nat, (n : Int) ≤ state.ammo →
      (applyHits state n).status = GameStatus.PLAYING ∧
        (applyHits state n).isReloading = false ∧
        (applyHits state n).ammo = state.ammo - n ∧
        (applyHits state n).stats.currentStreak = n ∧
        (n : Int) ≤ (applyHits state n).stats.bestStreak := by
  intro n
  induction n with
  | zero =>
      intro _
      exact ⟨hst, hrel, by simp [applyHits], by simp [applyHits, hcur], by
        simpa [applyHits] using hbest⟩
  | succ n ih =>
      intro hn
      have hn' : (n : Int) ≤ state.ammo := by push_cast at hn ⊢; omega
      obtain ⟨ih1, ih2, ih3, ih4, ih5⟩ := ih hn'
      have hguard :
          ¬((applyHits state n).status ≠ GameStatus.PLAYING ∨
            (applyHits state n).isReloading = true ∨ (applyHits state n).ammo ≤ 0) := by
        push_neg
        refine ⟨by simp [ih1], by simp [ih2], ?_⟩
        rw [ih3]
        push_cast at hn
        omega
      have hstep : applyHits state (n + 1) =
          gameReducer (applyHits state n) (GameAction.REGISTER_SHOT true) := rfl
      rw [hstep]
      simp only [gameReducer]
      rw [if_neg hguard]
      refine ⟨ih1, ih2, ?_, ?_, ?_⟩
      · show (applyHits state n).ammo - 1 = state.ammo - (n + 1 : Nat)
        rw [ih3]
        push_cast
        omega
      · show (if true then (applyHits state n).stats.currentStreak + 1 else 0) = ((n : Int) + 1)
        rw [if_pos rfl, ih4]
      · show (n : Int) + 1 ≤
          if true then
            max (applyHits state n).stats.bestStreak ((applyHits state n).stats.currentStreak + 1)
          else (applyHits state n).stats.bestStreak
        rw [if_pos rfl, ih4]
        exact le_max_right _ _

/-- C6: from a PLAYING state with currentStreak = 0, no reload in progress,
ammo at least N + 1, and a bestStreak that is nonnegative (the standing
spec invariant bestStreak at least currentStreak, which is 0 here),
N hits yield currentStreak = N and bestStreak at least N, and a further
miss resets currentStreak to 0 while leaving bestStreak unchanged. -/
theorem c6_streak_counting (state : GameState) (N : Nat)
    (hst : state.status = GameStatus.PLAYING)
    (hcur : state.stats.currentStreak = 0)
    (hrel : state.isReloading = false)
    (hbest : 0 ≤ state.stats.bestStreak)
    (hammo : (N : Int) + 1 ≤ state.ammo) :
    (applyHits state N).stats.currentStreak = N ∧
      (N : Int) ≤ (applyHits state N).stats.bestStreak ∧
      (gameReducer (applyHits state N) (GameAction.REGISTER_SHOT false)).stats.currentStreak = 0 ∧
      (gameReducer (applyHits state N) (GameAction.REGISTER_SHOT false)).stats.bestStreak =
        (applyHits state N).stats.bestStreak := by
  have hN : (N : Int) ≤ state.ammo := by omega
  obtain ⟨h1, h2, h3, h4, h5⟩ := applyHits_spec state hst hrel hcur hbest N hN
  have hguard :
      ¬((applyHits state N).status ≠ GameStatus.PLAYING ∨
        (applyHits state N).isReloading = true ∨ (applyHits state N).ammo ≤ 0) := by
    push_neg
    refine ⟨by simp [h1], by simp [h2], ?_⟩
    rw [h3]
    omega
  refine ⟨h4, h5, ?_, ?_⟩
  · simp only [gameReducer]
    rw [if_neg hguard]
    show (if false = true then (applyHits state N).stats.currentStreak + 1 else 0) = 0
    simp
  · simp only [gameReducer]
    rw [if_neg hguard]
    show (if false = true then
        max (applyHits state N).stats.bestStreak ((applyHits state N).stats.currentStreak + 1)
      else (applyHits state N).stats.bestStreak) = (applyHits state N).stats.bestStreak
    simp

/-- Witness for C6 at a concrete input: three hits from a fresh PLAYING
state with 10 rounds, then a miss. -/
theorem c6_streak_counting_witness :
    (applyHits { createInitialState DifficultyLevel.TACTICAL with status := GameStatus.PLAYING }
        3).stats.currentStreak = 3 ∧
      (3 : Int) ≤
        (applyHits { createInitialState DifficultyLevel.TACTICAL with status := GameStatus.PLAYING }
            3).stats.bestStreak ∧
      (gameReducer
          (applyHits { createInitialState DifficultyLevel.TACTICAL with status := GameStatus.PLAYING } 3)
          (GameAction.REGISTER_SHOT false)).stats.currentStreak = 0 ∧
      (gameReducer
          (applyHits { createInitialState DifficultyLevel.TACTICAL with status := GameStatus.PLAYING } 3)
          (GameAction.REGISTER_SHOT false)).stats.bestStreak =
        (applyHits { createInitialState DifficultyLevel.TACTICAL with status := GameStatus.PLAYING }
            3).stats.bestStreak :=
  c6_streak_counting _ 3 (by decide) (by decide) (by decide) (by decide) (by decide)

/-- SessionSnapshot record from src/domain/session-analytics.ts lines 3-12.
Numeric fields are JavaScript numbers, modelled as rationals. -/
structure SessionSnapshot where
  id : Int
  endedAt : Rat
  score : Rat
  accuracy : Rat
  kills : Rat
  highestWave : Rat
  durationMs : Rat
  difficulty : DifficultyLevel
deriving DecidableEq, Repr

/-- SessionInsights record from src/domain/session-analytics.ts lines
14-22. -/
structure SessionInsights where
  totalSessions : Nat
  averageAccuracy : Rat
  averageDurationMs : Int
  bestScore : Rat
  bestWave : Rat
  recentSessions : List SessionSnapshot
  recommendedDifficulty : DifficultyLevel
deriving DecidableEq, Repr

/-- The comparator (a, b) => b.endedAt - a.endedAt used by the two sort
calls in src/domain/session-analytics.ts, as the boolean order relation of
a stable merge sort: a stays before b exactly when a.endedAt is at least
b.endedAt, which is the same descending, stable order the stable JavaScript
Array.prototype.sort produces with that comparator. -/
def snapLe (a b : SessionSnapshot) : Bool := decide (b.endedAt ≤ a.endedAt)

theorem snapLe_trans : ∀ a b c, snapLe a b → snapLe b c → snapLe a c := by
  intro a b c hab hbc
  simp only [snapLe, decide_eq_true_iff] at *
  exact le_trans hbc hab

theorem snapLe_total : ∀ a b, snapLe a b || snapLe b a := by
  intro a b
  simp only [snapLe, Bool.or_eq_true, decide_eq_true_iff]
  exact le_total b.endedAt a.endedAt

/-- Sorting a snapshot list most-recent-first by endedAt. -/
def sortByEndedAtDesc (l : List SessionSnapshot) : List SessionSnapshot :=
  l.mergeSort snapLe

/-- appendSessionHistory from src/domain/session-analytics.ts lines 59-66:
prepend the new snapshot, re-sort descending by endedAt, truncate to
maxItems (default 20 at the call sites). -/
def appendSessionHistory (history : List SessionSnapshot) (newSnapshot : SessionSnapshot)
    (maxItems : Nat) : List SessionSnapshot :=
  (sortByEndedAtDesc (newSnapshot :: history)).take maxItems

/-- Input record of calculateRecommendedDifficulty. -/
structure RecommendationInput where
  totalSessions : Nat
  averageAccuracy : Rat
  bestWave : Rat
deriving DecidableEq, Repr

/-- calculateRecommendedDifficulty from src/domain/session-analytics.ts
lines 47-57, rules evaluated in order, first match wins. -/
def calculateRecommendedDifficulty (input : RecommendationInput) : DifficultyLevel :=
  if input.totalSessions < 3 then DifficultyLevel.CASUAL
  else if 86 ≤ input.averageAccuracy ∧ 9 ≤ input.bestWave then DifficultyLevel.INSANE
  else if 68 ≤ input.averageAccuracy ∧ 5 ≤ input.bestWave then DifficultyLevel.TACTICAL
  else if input.averageAccuracy < 42 then DifficultyLevel.EASY
  else DifficultyLevel.CASUAL

/-- Number(x.toFixed(1)) on a nonnegative double, idealised over the
rationals as exact rounding to one decimal place (half rounds up; binary
double representation error is ignored). -/
def roundTenths (x : Rat) : Rat := ((Int.floor (10 * x + 1 / 2) : Int) : Rat) / 10

/-- Math.round, which in JavaScript is the floor of x + 0.5. -/
def jsRound (x : Rat) : Int := Int.floor (x + 1 / 2)

/-- The recentSessions computation of deriveSessionInsights: a sorted copy
of the history, most recent first, truncated to the 5 most recent. -/
def recentOf (history : List SessionSnapshot) : List SessionSnapshot :=
  (sortByEndedAtDesc history).take 5

/-- deriveSessionInsights from src/domain/session-analytics.ts lines
68-103.  The source also computes a totalScore accumulator that it never
uses; it is omitted.  Averages divide by recentSessions.length, bests fold
Math.max over the whole history starting at 0. -/
def deriveSessionInsights (history : List SessionSnapshot) : SessionInsights :=
  if history = [] then
    { totalSessions := 0
      averageAccuracy := 0
      averageDurationMs := 0
      bestScore := 0
      bestWave := 0
      recentSessions := []
      recommendedDifficulty := DifficultyLevel.CASUAL }
  else
    let recent := recentOf history
    let totalAccuracy := (recent.map (fun s => s.accuracy)).sum
    let totalDuration := (recent.map (fun s => s.durationMs)).sum
    let bestScore := history.foldl (fun best s => max best s.score) 0
    let bestWave := history.foldl (fun best s => max best s.highestWave) 0
    let averageAccuracy := roundTenths (totalAccuracy / (recent.length : Rat))
    let averageDurationMs := jsRound (totalDuration / (recent.length : Rat))
    { totalSessions := history.length
      averageAccuracy := averageAccuracy
      averageDurationMs := averageDurationMs
      bestScore := bestScore
      bestWave := bestWave
      recentSessions := recent
      recommendedDifficulty :=
        calculateRecommendedDifficulty
          { totalSessions := history.length
            averageAccuracy := averageAccuracy
            bestWave := bestWave } }

/-- C4 counterexample: on the empty history the engine returns CASUAL,
while rule 4 (averageAccuracy below 42) recommends EASY, the lowest of the
four tiers session-analytics admits — so the recommendation for the empty
history is not the tier of rule 4. -/
theorem c4_empty_history_counterexample :
    (deriveSessionInsights []).recommendedDifficulty = DifficultyLevel.CASUAL ∧
      calculateRecommendedDifficulty
          { totalSessions := 3, averageAccuracy := 41, bestWave := 0 } = DifficultyLevel.EASY ∧
      DifficultyLevel.CASUAL ≠ DifficultyLevel.EASY := by
  refine ⟨by decide, by decide, by decide⟩

/-- C4 (amended): deriveSessionInsights on the empty history is total and
returns totalSessions = 0 and recommendedDifficulty = CASUAL — the tier of
rule 1 (fewer than 3 sessions), one tier above the EASY tier that rule 4
(averageAccuracy below 42) recommends — with every other aggregate zero
and no division performed. -/
theorem c4_empty_history_insights :
    deriveSessionInsights [] =
      { totalSessions := 0
        averageAccuracy := 0
        averageDurationMs := 0
        bestScore := 0
        bestWave := 0
        recentSessions := []
        recommendedDifficulty := DifficultyLevel.CASUAL } := by
  decide

/-- Snapshot fixtures for concrete witnesses. -/
def snapA : SessionSnapshot :=
  { id := 1, endedAt := 10, score := 5, accuracy := 50, kills := 1, highestWave := 2,
    durationMs := 1000, difficulty := DifficultyLevel.CASUAL }

/-- Second snapshot fixture. -/
def snapB : SessionSnapshot :=
  { id := 2, endedAt := 30, score := 9, accuracy := 70, kills := 3, highestWave := 4,
    durationMs := 2000, difficulty := DifficultyLevel.TACTICAL }

/-- Third snapshot fixture. -/
def snapC : SessionSnapshot :=
  { id := 3, endedAt := 20, score := 7, accuracy := 60, kills := 2, highestWave := 3,
    durationMs := 1500, difficulty := DifficultyLevel.CASUAL }

/-- C7: for every history, new snapshot and maxItems at least 1, the
appended history has length at most maxItems, is sorted descending by
endedAt, and is a prefix of a sorted permutation of newSnapshot plus the
history — nothing is duplicated and nothing is dropped except by the final
truncation. -/
theorem c7_append_session_history (history : List SessionSnapshot)
    (newSnapshot : SessionSnapshot) (maxItems : Nat) (hm : 1 ≤ maxItems) :
    (appendSessionHistory history newSnapshot maxItems).length ≤ maxItems ∧
      (appendSessionHistory history newSnapshot maxItems).Pairwise
        (fun a b => b.endedAt ≤ a.endedAt) ∧
      ∃ rest,
        appendSessionHistory history newSnapshot maxItems ++ rest =
          sortByEndedAtDesc (newSnapshot :: history) ∧
        (sortByEndedAtDesc (newSnapshot :: history)).Perm (newSnapshot :: history) := by
  refine ⟨?_, ?_, ?_⟩
  · exact List.length_take_le maxItems _
  · have hsorted :=
      List.sorted_mergeSort snapLe_trans snapLe_total (newSnapshot :: history)
    have hsub : List.Sublist (appendSessionHistory history newSnapshot maxItems)
        (sortByEndedAtDesc (newSnapshot :: history)) := List.take_sublist _ _
    have := hsorted.sublist hsub
    refine this.imp ?_
    intro a b hab
    simpa [snapLe] using hab
  · exact ⟨(sortByEndedAtDesc (newSnapshot :: history)).drop maxItems,
      List.take_append_drop _ _, List.mergeSort_perm _ _⟩

/-- Witness for C7 at a concrete two-element history with maxItems = 2. -/
theorem c7_append_session_history_witness :
    1 ≤ 2 ∧
      ((appendSessionHistory [snapA, snapB] snapC 2).length ≤ 2 ∧
        (appendSessionHistory [snapA, snapB] snapC 2).Pairwise
          (fun a b => b.endedAt ≤ a.endedAt) ∧
        ∃ rest,
          appendSessionHistory [snapA, snapB] snapC 2 ++ rest =
            sortByEndedAtDesc (snapC :: [snapA, snapB]) ∧
          (sortByEndedAtDesc (snapC :: [snapA, snapB])).Perm (snapC :: [snapA, snapB])) :=
  ⟨by decide, c7_append_session_history [snapA, snapB] snapC 2 (by decide)⟩

/-- The seed of a Math.max fold never exceeds its result. -/
theorem foldl_max_init_le (f : SessionSnapshot → Rat) :
    ∀ (l : List SessionSnapshot) (init : Rat),
      init ≤ l.foldl (fun best s => max best (f s)) init := by
  intro l
  induction l with
  | nil => intro init; simp
  | cons x l ih =>
      intro init
      calc init ≤ max init (f x) := le_max_left _ _
        _ ≤ l.foldl (fun best s => max best (f s)) (max init (f x)) := ih _
        _ = (x :: l).foldl (fun best s => max best (f s)) init := by simp

/-- Every listed value is bounded by the Math.max fold. -/
theorem foldl_max_mem_le (f : SessionSnapshot → Rat) :
    ∀ (l : List SessionSnapshot) (init : Rat) (s : SessionSnapshot), s ∈ l →
      f s ≤ l.foldl (fun best t => max best (f t)) init := by
  intro l
  induction l with
  | nil => intro init s hs; cases hs
  | cons x l ih =>
      intro init s hs
      rw [List.foldl_cons]
      rcases List.mem_cons.mp hs with h | h
      · subst h
        calc f s ≤ max init (f s) := le_max_right _ _
          _ ≤ l.foldl (fun best t => max best (f t)) (max init (f s)) := foldl_max_init_le f l _
      · exact ih (max init (f x)) s h

/-- The Math.max fold either returns its seed or attains a listed value. -/
theorem foldl_max_attained (f : SessionSnapshot → Rat) :
    ∀ (l : List SessionSnapshot) (init : Rat),
      l.foldl (fun best t => max best (f t)) init = init ∨
        ∃ s ∈ l, l.foldl (fun best t => max best (f t)) init = f s := by
  intro l
  induction l with
  | nil => intro init; exact Or.inl rfl
  | cons x l ih =>
      intro init
      rw [List.foldl_cons]
      rcases ih (max init (f x)) with h | ⟨s, hs, h⟩
      · rcases le_total (f x) init with hle | hle
        · exact Or.inl (h.trans (max_eq_left hle))
        · exact Or.inr ⟨x, List.mem_cons_self x l, h.trans (max_eq_right hle)⟩
      · exact Or.inr ⟨s, List.mem_cons_of_mem x hs, h⟩

/-- C8: on a nonempty history the rolling averages are computed over
exactly the at-most-5 most-recent-by-endedAt snapshots, while bestScore and
bestWave are attained maxima over the entire history (given the scores and
waves are nonnegative, as the game only produces nonnegative values). -/
theorem c8_recent_averages_alltime_bests (history : List SessionSnapshot)
    (hne : history ≠ [])
    (hscore : ∀ s ∈ history, 0 ≤ s.score)
    (hwave : ∀ s ∈ history, 0 ≤ s.highestWave) :
    (deriveSessionInsights history).averageAccuracy =
        roundTenths (((recentOf history).map (fun s => s.accuracy)).sum /
          ((recentOf history).length : Rat)) ∧
      (deriveSessionInsights history).averageDurationMs =
        jsRound (((recentOf history).map (fun s => s.durationMs)).sum /
          ((recentOf history).length : Rat)) ∧
      (recentOf history).length = min 5 history.length ∧
      (∃ rest, (recentOf history ++ rest).Perm history ∧
        ∀ x ∈ recentOf history, ∀ y ∈ rest, y.endedAt ≤ x.endedAt) ∧
      (∀ s ∈ history, s.score ≤ (deriveSessionInsights history).bestScore) ∧
      (∃ s ∈ history, (deriveSessionInsights history).bestScore = s.score) ∧
      (∀ s ∈ history, s.highestWave ≤ (deriveSessionInsights history).bestWave) ∧
      (∃ s ∈ history, (deriveSessionInsights history).bestWave = s.highestWave) := by
  have hbs : (deriveSessionInsights history).bestScore =
      history.foldl (fun best s => max best s.score) 0 := by
    simp only [deriveSessionInsights]
    rw [if_neg hne]
  have hbw : (deriveSessionInsights history).bestWave =
      history.foldl (fun best s => max best s.highestWave) 0 := by
    simp only [deriveSessionInsights]
    rw [if_neg hne]
  refine ⟨?_, ?_, ?_, ?_, ?_, ?_, ?_, ?_⟩
  · simp only [deriveSessionInsights]
    rw [if_neg hne]
  · simp only [deriveSessionInsights]
    rw [if_neg hne]
  · simp [recentOf, sortByEndedAtDesc, List.length_take]
  · refine ⟨(sortByEndedAtDesc history).drop 5, ?_, ?_⟩
    · have h1 : recentOf history ++ (sortByEndedAtDesc history).drop 5 =
          sortByEndedAtDesc history := List.take_append_drop 5 _
      rw [h1]
      exact List.mergeSort_perm _ _
    · intro x hx y hy
      have hsorted := List.sorted_mergeSort snapLe_trans snapLe_total history
      have h1 : sortByEndedAtDesc history =
          recentOf history ++ (sortByEndedAtDesc history).drop 5 :=
        (List.take_append_drop 5 _).symm
      have hsorted' : List.Pairwise (fun a b => snapLe a b = true)
          (recentOf history ++ (sortByEndedAtDesc history).drop 5) := by
        rw [← h1]
        exact hsorted
      have := (List.pairwise_append.mp hsorted').2.2 x hx y hy
      simpa [snapLe] using this
  · intro s hs
    rw [hbs]
    exact foldl_max_mem_le (fun t => t.score) history 0 s hs
  · rcases foldl_max_attained (fun t => t.score) history 0 with h | ⟨s, hs, h⟩
    · obtain ⟨s₀, hs₀⟩ := List.exists_mem_of_ne_nil history hne
      have h1 : s₀.score ≤ 0 := by
        have := foldl_max_mem_le (fun t => t.score) history 0 s₀ hs₀
        rw [h] at this
        exact this
      exact ⟨s₀, hs₀, by rw [hbs, h]; exact (le_antisymm h1 (hscore s₀ hs₀)).symm⟩
    · exact ⟨s, hs, by rw [hbs]; exact h⟩
  · intro s hs
    rw [hbw]
    exact foldl_max_mem_le (fun t => t.highestWave) history 0 s hs
  · rcases foldl_max_attained (fun t => t.highestWave) history 0 with h | ⟨s, hs, h⟩
    · obtain ⟨s₀, hs₀⟩ := List.exists_mem_of_ne_nil history hne
      have h1 : s₀.highestWave ≤ 0 := by
        have := foldl_max_mem_le (fun t => t.highestWave) history 0 s₀ hs₀
        rw [h] at this
        exact this
      exact ⟨s₀, hs₀, by rw [hbw, h]; exact (le_antisymm h1 (hwave s₀ hs₀)).symm⟩
    · exact ⟨s, hs, by rw [hbw]; exact h⟩

/-- A concrete three-snapshot history for witnesses. -/
def hist3 : List SessionSnapshot := [snapA, snapB, snapC]

/-- Witness for C8: the theorem applied to the concrete three-snapshot
history, with every hypothesis checked by evaluation. -/
theorem c8_recent_averages_alltime_bests_witness :
    (deriveSessionInsights hist3).averageAccuracy =
        roundTenths (((recentOf hist3).map (fun s => s.accuracy)).sum /
          ((recentOf hist3).length : Rat)) ∧
      (deriveSessionInsights hist3).averageDurationMs =
        jsRound (((recentOf hist3).map (fun s => s.durationMs)).sum /
          ((recentOf hist3).length : Rat)) ∧
      (recentOf hist3).length = min 5 hist3.length ∧
      (∃ rest, (recentOf hist3 ++ rest).Perm hist3 ∧
        ∀ x ∈ recentOf hist3, ∀ y ∈ rest, y.endedAt ≤ x.endedAt) ∧
      (∀ s ∈ hist3, s.score ≤ (deriveSessionInsights hist3).bestScore) ∧
      (∃ s ∈ hist3, (deriveSessionInsights hist3).bestScore = s.score) ∧
      (∀ s ∈ hist3, s.highestWave ≤ (deriveSessionInsights hist3).bestWave) ∧
      (∃ s ∈ hist3, (deriveSessionInsights hist3).bestWave = s.highestWave) :=
  c8_recent_averages_alltime_bests hist3 (by decide) (by decide) (by decide)

/-- C10: appendSessionHistory can drop the newly appended snapshot itself.
In general (for a snapshot not already present by value), the new snapshot
is retained exactly when fewer than maxItems history entries have a
strictly larger endedAt — i.e. when it is among the maxItems most recent
entries, ties resolved in its favour by sort stability. -/
theorem c10_new_snapshot_retention (history : List SessionSnapshot)
    (newSnapshot : SessionSnapshot) (maxItems : Nat) (hni : newSnapshot ∉ history) :
    newSnapshot ∈ appendSessionHistory history newSnapshot maxItems ↔
      history.countP (fun b => decide (newSnapshot.endedAt < b.endedAt)) < maxItems := by
  obtain ⟨l₁, l₂, h1, h2, h3⟩ :=
    List.mergeSort_cons snapLe_trans snapLe_total newSnapshot history
  have hperm : (l₁ ++ l₂).Perm history := by
    rw [← h2]
    exact List.mergeSort_perm _ _
  have hl₁ : ∀ b ∈ l₁, decide (newSnapshot.endedAt < b.endedAt) = true := by
    intro b hb
    have hb' := h3 b hb
    simp only [snapLe, Bool.not_eq_true', decide_eq_false_iff_not, not_le] at hb'
    simpa using hb'
  have hsorted := List.sorted_mergeSort snapLe_trans snapLe_total (newSnapshot :: history)
  rw [h1] at hsorted
  have hl₂ : ∀ b ∈ l₂, decide (newSnapshot.endedAt < b.endedAt) = false := by
    intro b hb
    have hcons : List.Pairwise (fun a b => snapLe a b = true) (newSnapshot :: l₂) :=
      (List.pairwise_append.mp hsorted).2.1
    have hle := (List.pairwise_cons.mp hcons).1 b hb
    simp only [snapLe, decide_eq_true_iff] at hle
    simpa using not_lt.mpr hle
  have hcount : history.countP (fun b => decide (newSnapshot.endedAt < b.endedAt)) =
      l₁.length := by
    rw [← List.Perm.countP_eq _ hperm, List.countP_append,
      List.countP_eq_length.mpr hl₁,
      List.countP_eq_zero.mpr (by intro a ha; simp [hl₂ a ha])]
    omega
  have happ : appendSessionHistory history newSnapshot maxItems =
      (l₁ ++ newSnapshot :: l₂).take maxItems := by
    unfold appendSessionHistory sortByEndedAtDesc
    rw [h1]
  have hnl₁ : newSnapshot ∉ l₁ := fun hmem =>
    hni (hperm.mem_iff.mp (List.mem_append_left l₂ hmem))
  rw [happ, hcount]
  constructor
  · intro hmem
    by_contra hlt
    push_neg at hlt
    rw [List.take_append_eq_append_take] at hmem
    have hz : (newSnapshot :: l₂).take (maxItems - l₁.length) = [] := by
      rw [Nat.sub_eq_zero_of_le hlt]
      rfl
    rw [hz, List.append_nil] at hmem
    exact hnl₁ (List.take_subset _ _ hmem)
  · intro hlt
    rw [List.take_append_eq_append_take]
    refine List.mem_append_right _ ?_
    obtain ⟨k, hk⟩ : ∃ k, maxItems - l₁.length = k + 1 :=
      ⟨maxItems - l₁.length - 1, by omega⟩
    rw [hk, List.take_succ_cons]
    exact List.mem_cons_self _ _

/-- Witness for C10: with maxItems = 1 and a single more recent history
entry, the newly appended snapshot is itself dropped. -/
theorem c10_new_snapshot_retention_witness :
    snapC ∉ [snapB] ∧ snapC ∉ appendSessionHistory [snapB] snapC 1 :=
  ⟨by decide, fun hmem =>
    absurd ((c10_new_snapshot_retention [snapB] snapC 1 (by decide)).mp hmem) (by decide)⟩

/-- Movement gestures from src/types. -/
inductive MovementGesture where
  | STOP
  | FORWARD
  | BACKWARD
  | LEFT
  | RIGHT
deriving DecidableEq, Repr

/-- Combat gestures from src/types. -/
inductive CombatGesture where
  | IDLE
  | AIM
  | IRON_SIGHT
  | FIRE
  | RELOAD
deriving DecidableEq, Repr

/-- Planar coordinates of a hand landmark.  MediaPipe also reports z, which
getDistance in src/components/HandTracker.tsx ignores. -/
structure Landmark where
  x : Rat
  y : Rat
deriving DecidableEq, Repr

/-- Fallback landmark for out-of-range indexing (MediaPipe always delivers
21 landmarks, so the fallback is never reached on real frames). -/
def defaultLandmark : Landmark := { x := 0, y := 0 }

/-- Squared planar distance.  getDistance in src/components/HandTracker.tsx
lines 173-175 returns sqrt of this; the sources only ever compare it with
positive constants, and sqrt d less than t is equivalent to d less than
t squared, so the embedding compares squares throughout. -/
def getDistanceSq (p1 p2 : Landmark) : Rat :=
  (p1.x - p2.x) ^ 2 + (p1.y - p2.y) ^ 2

/-- TrackerCalibration record, from the isTrackerCalibration validator in
src/App.tsx lines 176-189 (the profile the UI persists). -/
structure TrackerCalibration where
  movementCenterX : Rat
  movementCenterY : Rat
  movementDeadzone : Rat
  fistStopThreshold : Rat
  indexExtendedThreshold : Rat
  fireCurlThreshold : Rat
  openHandThreshold : Rat
  smoothingFrames : Nat
deriving DecidableEq, Repr

/-- The fist test of detectMovement with the threshold as a parameter: all
four fingertip-to-wrist planar distances below t.  detectMovement applies
it at the fixed threshold 0.15; claim C5 quantifies it over the
fistStopThreshold of a profile. -/
def allFingertipsWithin (landmarks : List Landmark) (t : Rat) : Bool :=
  [8, 12, 16, 20].all fun idx =>
    decide (getDistanceSq (landmarks.getD idx defaultLandmark)
      (landmarks.getD 0 defaultLandmark) < t ^ 2)

/-- detectMovement from src/components/HandTracker.tsx lines 132-147.  The
thresholds are hard-coded in the source: fist threshold 0.15, center
(0.25, 0.5), deadzone 0.08; the calibration profile is not consulted.
LEFT/RIGHT are mirror-swapped relative to raw camera x, as in the
source. -/
def detectMovement (landmarks : List Landmark) : MovementGesture :=
  let wrist := landmarks.getD 0 defaultLandmark
  if allFingertipsWithin landmarks (15 / 100) then MovementGesture.STOP
  else
    let centerX : Rat := 25 / 100
    let centerY : Rat := 1 / 2
    let threshold : Rat := 8 / 100
    if wrist.y < centerY - threshold then MovementGesture.FORWARD
    else if wrist.y > centerY + threshold then MovementGesture.BACKWARD
    else if wrist.x < centerX - threshold then MovementGesture.RIGHT
    else if wrist.x > centerX + threshold then MovementGesture.LEFT
    else MovementGesture.STOP

/-- A profile whose fistStopThreshold (0.5) is wider than the hard-coded
0.15 of detectMovement; the other fields carry the fixed values of the code. -/
def calWide : TrackerCalibration :=
  { movementCenterX := 25 / 100
    movementCenterY := 1 / 2
    movementDeadzone := 8 / 100
    fistStopThreshold := 1 / 2
    indexExtendedThreshold := 3 / 10
    fireCurlThreshold := 12 / 100
    openHandThreshold := 3 / 10
    smoothingFrames := 3 }

/-- Wrist landmark of the counterexample hand: below the deadzone. -/
def lmkW : Landmark := { x := 1 / 4, y := 9 / 10 }

/-- Fingertip landmark of the counterexample hand: 0.3 from the wrist. -/
def lmkF : Landmark := { x := 11 / 20, y := 9 / 10 }

/-- Filler landmark. -/
def lmkZ : Landmark := { x := 0, y := 0 }

/-- A 21-landmark hand whose four fingertips are 0.3 from the wrist:
within calWide.fistStopThreshold = 0.5, but not within the fixed code
0.15. -/
def handLooseFist : List Landmark :=
  [lmkW, lmkZ, lmkZ, lmkZ, lmkZ, lmkZ, lmkZ, lmkZ, lmkF, lmkZ, lmkZ, lmkZ,
    lmkF, lmkZ, lmkZ, lmkZ, lmkF, lmkZ, lmkZ, lmkZ, lmkF]

/-- C5 counterexample: a 21-landmark hand whose four fingertip-to-wrist
distances are all below the fistStopThreshold of the profile (0.5), yet
detectMovement — which ignores the calibration profile and uses the fixed
threshold 0.15 — classifies BACKWARD, not STOP. -/
theorem c5_fist_stop_counterexample :
    handLooseFist.length = 21 ∧
      allFingertipsWithin handLooseFist calWide.fistStopThreshold = true ∧
      detectMovement handLooseFist = MovementGesture.BACKWARD ∧
      MovementGesture.BACKWARD ≠ MovementGesture.STOP := by
  have h0 : handLooseFist.getD 0 defaultLandmark = lmkW := rfl
  have h8 : handLooseFist.getD 8 defaultLandmark = lmkF := rfl
  have h12 : handLooseFist.getD 12 defaultLandmark = lmkF := rfl
  have h16 : handLooseFist.getD 16 defaultLandmark = lmkF := rfl
  have h20 : handLooseFist.getD 20 defaultLandmark = lmkF := rfl
  have hdist : getDistanceSq lmkF lmkW = 9 / 100 := by
    norm_num [getDistanceSq, lmkF, lmkW]
  refine ⟨rfl, ?_, ?_, by decide⟩
  · simp only [allFingertipsWithin, List.all_cons, List.all_nil, Bool.and_true,
      Bool.and_eq_true, decide_eq_true_eq, h0, h8, h12, h16, h20, hdist]
    norm_num [calWide]
  · have hfist : allFingertipsWithin handLooseFist (15 / 100) = false := by
      simp only [allFingertipsWithin, List.all_eq_false]
      refine ⟨8, by decide, ?_⟩
      simp only [decide_eq_true_eq, not_lt, h0, h8, hdist]
      norm_num
    simp only [detectMovement, hfist, Bool.false_eq_true, if_false, h0, lmkW]
    norm_num

/-- C5 (amended): with the fixed fist threshold 0.15 of the code in place
of the fistStopThreshold of the profile, a fist always classifies STOP regardless
of wrist position. -/
theorem c5_fist_yields_stop (landmarks : List Landmark)
    (h : allFingertipsWithin landmarks (15 / 100) = true) :
    detectMovement landmarks = MovementGesture.STOP := by
  simp [detectMovement, h]

/-- Fingertip landmark sitting 0.01 from the counterexample wrist. -/
def lmkN : Landmark := { x := 26 / 100, y := 9 / 10 }

/-- A 21-landmark hand whose fingertips sit 0.01 from the wrist, with the
wrist far outside the deadzone. -/
def handTightFist : List Landmark :=
  [lmkW, lmkZ, lmkZ, lmkZ, lmkZ, lmkZ, lmkZ, lmkZ, lmkN, lmkZ, lmkZ, lmkZ,
    lmkN, lmkZ, lmkZ, lmkZ, lmkN, lmkZ, lmkZ, lmkZ, lmkN]

/-- Witness for the amended C5 theorem: a tight fist with the wrist well
outside the deadzone still classifies STOP. -/
theorem c5_fist_yields_stop_witness :
    allFingertipsWithin handTightFist (15 / 100) = true ∧
      detectMovement handTightFist = MovementGesture.STOP := by
  have h0 : handTightFist.getD 0 defaultLandmark = lmkW := rfl
  have h8 : handTightFist.getD 8 defaultLandmark = lmkN := rfl
  have h12 : handTightFist.getD 12 defaultLandmark = lmkN := rfl
  have h16 : handTightFist.getD 16 defaultLandmark = lmkN := rfl
  have h20 : handTightFist.getD 20 defaultLandmark = lmkN := rfl
  have hall : allFingertipsWithin handTightFist (15 / 100) = true := by
    simp only [allFingertipsWithin, List.all_cons, List.all_nil, Bool.and_true,
      Bool.and_eq_true, decide_eq_true_eq, h0, h8, h12, h16, h20]
    norm_num [getDistanceSq, lmkN, lmkW]
  exact ⟨hall, c5_fist_yields_stop handTightFist hall⟩

/-- HandState record from src/types, produced once per processed frame. -/
structure HandState where
  movement : MovementGesture
  combat : CombatGesture
  leftHandPresent : Bool
  rightHandPresent : Bool
deriving DecidableEq, Repr

/-- The propagation gate at the end of onResults in
src/components/HandTracker.tsx lines 66-69: lastStateRef starts null, and
the freshly computed HandState of a frame is handed to onUpdate (and recorded)
only when its JSON serialisation differs from the last recorded one.  For
HandState records built by the one literal in onResults, JSON.stringify
equality is exactly value equality, and the null initial ref differs from
every state.  The function returns, in order, the states passed to
onUpdate. -/
def propagateFrames (last : Option HandState) : List HandState → List HandState
  | [] => []
  | f :: fs =>
      if last = some f then propagateFrames last fs
      else f :: propagateFrames (some f) fs

/-- The sequence of onUpdate calls over a whole run of frames, starting
from the null lastStateRef. -/
def onUpdateCalls (frames : List HandState) : List HandState :=
  propagateFrames none frames

/-- Structure of a propagated run: consecutive propagated states differ,
and the first propagated state differs from the incoming last state. -/
theorem propagateFrames_chain :
    ∀ (frames : List HandState) (last : Option HandState),
      (propagateFrames last frames).Chain' (fun a b => a ≠ b) ∧
        ∀ h t, propagateFrames last frames = h :: t → some h ≠ last := by
  intro frames
  induction frames with
  | nil =>
      intro last
      exact ⟨List.chain'_nil, fun h t ht => nomatch ht⟩
  | cons f fs ih =>
      intro last
      by_cases hlf : last = some f
      · have heq : propagateFrames last (f :: fs) = propagateFrames last fs := by
          simp only [propagateFrames, if_pos hlf]
        constructor
        · rw [heq]
          exact (ih last).1
        · intro h t ht
          rw [heq] at ht
          exact (ih last).2 h t ht
      · have heq : propagateFrames last (f :: fs) = f :: propagateFrames (some f) fs := by
          simp only [propagateFrames, if_neg hlf]
        obtain ⟨ihc, ihh⟩ := ih (some f)
        constructor
        · rw [heq, List.chain'_cons']
          refine ⟨?_, ihc⟩
          intro c hc
          cases hcase : propagateFrames (some f) fs with
          | nil =>
              rw [hcase] at hc
              cases hc
          | cons d t =>
              rw [hcase] at hc
              simp only [List.head?_cons, Option.mem_some_iff] at hc
              subst hc
              intro hfc
              exact ihh d t hcase (by rw [hfc])
        · intro h t ht
          rw [heq] at ht
          have hhf : h = f := by
            injection ht with h1 h2
            exact h1.symm
          subst hhf
          exact fun hc => hlf hc.symm

/-- C9: the debounce gate never propagates a HandState equal to the last
propagated one — over every sequence of per-frame classifier outputs, each
state handed to onUpdate differs (by value) from the previously handed-on
state. -/
theorem c9_no_redundant_propagation (frames : List HandState) :
    (onUpdateCalls frames).Chain' (fun a b => a ≠ b) :=
  (propagateFrames_chain frames none).1
